import Mathlib

/-!
Verification development for the catalyzeio/docker-container-metrics
repository (sender/sender.py and collector/collector.py).

The Python source is shallowly embedded: pure computations become Lean
functions, numeric values (Python ints and floats) are modelled as `Rat`
(all arithmetic performed by the program is ring arithmetic and division
by 1024.0 or by a length, which is exact over the rationals), fallible
code returns `Except`, and the `None`-able min/max accumulators of
`total_min_max` become `Option Rat`.  External collaborators (the Docker
stats HTTP stream, `dateutil` timestamp parsing, the InfluxDB client,
the falcon HTTP framework) are modelled at their call boundary: a parsed
sample is a typed record whose `read` field already holds the whole-second
UNIX timestamp, the stats stream is a list of yields, and the store is an
oracle saying whether a batched write succeeds.
-/

namespace DockerMetrics

/-! ## Data model of one docker-stats sample (sender.py)

One element of the per-second stats stream, restricted to the keys the
sender keeps (`wanted_metrics = ['read', 'memory_stats', 'cpu_stats',
'network']`).  `read` is the sample timestamp; the Python code stores it
as a string and converts with
`int(dateutil.parser.parse(...).strftime('%s'))`, an external-library
round trip modelled here as the already-parsed integer of whole seconds. -/

structure NetworkCounters where
  tx_bytes : Int
  rx_bytes : Int
  tx_packets : Int
  rx_packets : Int
  tx_errors : Int
  rx_errors : Int
  tx_dropped : Int
  rx_dropped : Int
deriving DecidableEq, Repr

structure CpuUsageCounters where
  total_usage : Int
deriving DecidableEq, Repr

structure CpuStats where
  cpu_usage : CpuUsageCounters
  system_cpu_usage : Int
deriving DecidableEq, Repr

structure MemoryStats where
  usage : Int
deriving DecidableEq, Repr

structure DockerStat where
  read : Int
  memory_stats : MemoryStats
  cpu_stats : CpuStats
  network : NetworkCounters
deriving DecidableEq, Repr

/-- Entry stored into `machine_stats[container_id]` by
`get_stats_from_daemon`: `{'aliases': container_aliases, 'stats':
collected_stats}` where `collected_stats` is `None` exactly when the
stats stream raised mid-window. -/
structure ContainerEntry where
  aliases : List String
  stats : Option (List DockerStat)
deriving DecidableEq, Repr

/-! ## Sampler: get_stats_from_daemon (sender.py lines 122-143)

The stream of yields of the docker stats iterator is modelled as a list:
`some s` is a successfully delivered (and JSON-decoded, key-filtered)
sample, `none` marks the point where iterating the stream raises.  The
`except:` clause replaces the whole collected list by `None`; the
wall-clock part of the stop condition (`time.time() >= end_time`) is real
time and is not modelled, only the sample-count bound `len(...) >=
interval` is. -/

def collectLoop (interval : Nat) : List (Option DockerStat) → List DockerStat →
    Option (List DockerStat)
  | [], acc => some acc.reverse
  | none :: _, _ => none
  | some s :: rest, acc =>
      if (s :: acc).length ≥ interval then some (s :: acc).reverse
      else collectLoop interval rest (s :: acc)

def get_stats_from_daemon (stream : List (Option DockerStat)) (container_aliases : List String)
    (interval : Nat) : ContainerEntry :=
  { aliases := container_aliases, stats := collectLoop interval stream [] }

/-! ## Filter strategies (sender.py lines 55-92) -/

/-- Python `'sender' in value['aliases']` is list membership. -/
def match_all_but_sender (name : String) (value : ContainerEntry) : Bool :=
  if value.aliases.contains "sender" then false else true

def match_all (name : String) (value : ContainerEntry) : Bool :=
  true

/-- Replace every (left-to-right, non-overlapping) occurrence of the
nonempty pattern `p :: ps` in a character list by nothing; models Python
`str.replace(pat, '')` for the nonempty patterns `'urn:'` and `'uuid:'`.
Recursion is on a fuel bound (each step consumes at least one character,
so fuel `l.length` in `replAll` never runs out and the `fuel = 0`
fallthrough is unreachable); structural recursion keeps the function
kernel-reducible for the closed evaluations below. -/
def replAllAux (p : Char) (ps : List Char) : Nat → List Char → List Char
  | _, [] => []
  | 0, l => l
  | fuel + 1, c :: rest =>
      if (p :: ps).isPrefixOf (c :: rest) then replAllAux p ps fuel (rest.drop ps.length)
      else c :: replAllAux p ps fuel rest

def replAll (p : Char) (ps : List Char) (l : List Char) : List Char :=
  replAllAux p ps l.length l

/-- Python `str.strip('{}')`: drop leading and trailing characters drawn
from the set containing the two brace characters. -/
def stripBraces (l : List Char) : List Char :=
  ((l.dropWhile (fun c => c == '\x7b' || c == '\x7d')).reverse.dropWhile
    (fun c => c == '\x7b' || c == '\x7d')).reverse

/-- Hexadecimal digit as accepted by Python `int(_, 16)` within a
32-character candidate: `0-9`, `a-f`, `A-F`. -/
def isHexCh (c : Char) : Bool :=
  c.isDigit || ('a' ≤ c && c ≤ 'f') || ('A' ≤ c && c ≤ 'F')

/-- Canonical hex candidate built by the CPython `uuid.UUID(hex=...)`
constructor: `hex.replace('urn:', '').replace('uuid:', '')
.strip('{}').replace('-', '')`. -/
def pyUuidHex (s : String) : List Char :=
  (stripBraces (replAll 'u' ['u', 'i', 'd', ':'] (replAll 'u' ['r', 'n', ':'] s.data))).filter
    (fun c => c != '-')

/-- Success of `uuid.UUID(name, version=1)`.  The constructor raises
`ValueError` unless the canonical candidate has exactly 32 characters
accepted by `int(hex, 16)`, modelled as 32 hexadecimal digits (the
rarely-hit extra allowances of Python `int` — sign, `0x` prefix,
underscores, surrounding whitespace — are not modelled); the `version=1`
argument only overwrites the version and variant bits of the resulting
value and never raises, so it performs no validation at all. -/
def pyUuidValid (s : String) : Bool :=
  (pyUuidHex s).length == 32 && (pyUuidHex s).all isHexCh

/-- Modelled from the spec: "name must parse as a version-1 UUID string".
A version-1 UUID string is a syntactically valid UUID string whose
version nibble (character 13, index 12, of the canonical 32-digit hex
form) is `1`.  This is the spec-side reading that claim C7 asserts the
filter implements; it is compared against `match_on_uuid` below. -/
def specVersion1Uuid (s : String) : Bool :=
  pyUuidValid s && (pyUuidHex s).getD 12 'x' == '1'

def match_on_uuid (name : String) (value : ContainerEntry) : Bool :=
  if value.aliases.contains "sender" then false
  else pyUuidValid name

/-- Startup strategy selection (sender.py lines 86-92).  The `if/elif`
chain assigns `match_container_name`; the `NO_CADVISOR` branch refers to
the name `match_all_but_cadvisor`, which is defined nowhere in the file
(the defined function is `match_all_but_sender`), so taking that branch
raises `NameError`; an unrecognized `MATCH_TYPE` leaves
`match_container_name` unassigned, so its first use also raises
`NameError`.  Both failure modes are modelled as `none`. -/
def selectMatch (match_type_name : String) :
    Option (String → ContainerEntry → Bool) :=
  if match_type_name = "ALL" then some match_all
  else if match_type_name = "UUID" then some match_on_uuid
  else if match_type_name = "NO_CADVISOR" then none
  else none

/-! ## Aggregation helpers (sender.py lines 95-119) -/

/-- Faithful transcription of `total_min_max` (sender.py lines 95-107):
add `stat` to the running total and update the `None`-seeded min/max. -/
def total_min_max (stat : Rat) (s_total : Rat) (s_min s_max : Option Rat) :
    Rat × Option Rat × Option Rat :=
  let result_min :=
    match s_min with
    | none => some stat
    | some m => if stat < m then some stat else some m
  let result_max :=
    match s_max with
    | none => some stat
    | some m => if stat > m then some stat else some m
  (s_total + stat, result_min, result_max)

/-- Folding `total_min_max` over a list of already-extracted sample
values, from a given accumulator state; the per-sample loop of
`get_dockerstats_metrics` runs this with initial state `(0, None, None)`. -/
def tmmFold (init : Rat × Option Rat × Option Rat) :
    List Rat → Rat × Option Rat × Option Rat
  | [] => init
  | x :: l => tmmFold (total_min_max x init.1 init.2.1 init.2.2) l

/-- Memory reading of one sample in kilobytes: `memory['usage']/1024.0`. -/
def memKb (s : DockerStat) : Rat :=
  (s.memory_stats.usage : Rat) / 1024

/-- CPU load reading of one sample: `cpu['cpu_usage']['total_usage']`
(accumulated by the loop but never used in the payload). -/
def cpuLoad (s : DockerStat) : Rat :=
  (s.cpu_stats.cpu_usage.total_usage : Rat)

/-- Sum of `entry['stats'][field]` over `diskio['io_service_bytes']`
(sender.py lines 110-119); `io_serviced` entries are intentionally
ignored.  Kept for completeness of the aggregator model. -/
def process_diskio (io_service_bytes : List (String → Int)) (field : String) : Int :=
  io_service_bytes.foldl (fun total entry => total + entry field) 0

/-! ## Metric records (sender.py format_data, lines 327-338) -/

structure MetricRecord where
  measurement : String
  timestamp : Int
  tags : List (String × String)
  fields : List (String × Rat)
deriving DecidableEq, Repr

def format_data (measurement_name : String) (container : String) (timestamp : Int)
    (fields : List (String × Rat)) : MetricRecord :=
  { measurement := measurement_name
    timestamp := timestamp
    tags := [("container_name", container)]
    fields := fields }

/-- Python dict assignment `d[k] = v` on an insertion-ordered dict:
overwrite in place when the key is present, append otherwise. -/
def dictSet {α : Type} (d : List (String × α)) (k : String) (v : α) :
    List (String × α) :=
  if d.any (fun p => p.1 == k) then
    d.map (fun p => if p.1 == k then (k, v) else p)
  else d ++ [(k, v)]

/-- Python dict lookup `d[k]` / membership order: first binding wins. -/
def dictGet {α : Type} (d : List (String × α)) (k : String) : Option α :=
  match d with
  | [] => none
  | p :: rest => if p.1 == k then some p.2 else dictGet rest k

/-! ## Aggregator: the per-container body of get_dockerstats_metrics
(sender.py lines 165-232) -/

/-- Errors the aggregation loop can raise (it has no try/except, so any
of these aborts `get_dockerstats_metrics` before `send` runs). -/
inductive AggError where
  | typeError
  | indexError
deriving DecidableEq, Repr

def stripSlashes (s : String) : String :=
  ⟨s.data.filter (fun c => c != '/')⟩

/-- The alias-matching loop: the first alias whose slash-stripped form
satisfies the active filter becomes `container_name`. -/
def findMatchName (matchf : String → ContainerEntry → Bool) (e : ContainerEntry) :
    Option String :=
  (e.aliases.find? (fun n => matchf (stripSlashes n) e)).map stripSlashes

/-- One iteration of the `for key, value in machine_stats.items()` loop
of `get_dockerstats_metrics`: `.ok none` is the `continue` taken when no
alias matches; `.error .typeError` is `value['stats'][0]` subscripting
`None` (a broken stream); `.error .indexError` is `stats[0]` on an empty
list; otherwise the three summary records are produced. -/
def aggregate_container (matchf : String → ContainerEntry → Bool) (e : ContainerEntry) :
    Except AggError (Option (String × List MetricRecord)) :=
  match findMatchName matchf e with
  | none => Except.ok none
  | some container_name =>
    match e.stats with
    | none => Except.error AggError.typeError
    | some [] => Except.error AggError.indexError
    | some (first :: rest) =>
      let stats := first :: rest
      let ts := first.read
      let stats_len : Rat := (stats.length : Rat)
      let mem := tmmFold (0, none, none) (stats.map memKb)
      let load := tmmFold (0, none, none) (stats.map cpuLoad)
      let last := stats.getLast (List.cons_ne_nil first rest)
      let system_cpu : Int :=
        last.cpu_stats.system_cpu_usage - first.cpu_stats.system_cpu_usage
      let cpu_usage : List (String × Rat) :=
        [("total",
          ((last.cpu_stats.cpu_usage.total_usage -
            first.cpu_stats.cpu_usage.total_usage : Int) : Rat))]
      let memory_usage : List (String × Rat) :=
        [("total", mem.1),
         ("ave", mem.1 / stats_len),
         ("max", mem.2.2.getD 0),
         ("min", mem.2.1.getD 0)]
      let network_usage : List (String × Rat) :=
        [("tx_kb", ((last.network.tx_bytes - first.network.tx_bytes : Int) : Rat) / 1024),
         ("rx_kb", ((last.network.rx_bytes - first.network.rx_bytes : Int) : Rat) / 1024),
         ("tx_packets", ((last.network.tx_packets - first.network.tx_packets : Int) : Rat)),
         ("rx_packets", ((last.network.rx_packets - first.network.rx_packets : Int) : Rat)),
         ("tx_errors", ((last.network.tx_errors - first.network.tx_errors : Int) : Rat)),
         ("rx_errors", ((last.network.rx_errors - first.network.rx_errors : Int) : Rat)),
         ("tx_dropped", ((last.network.tx_dropped - first.network.tx_dropped : Int) : Rat)),
         ("rx_dropped", ((last.network.rx_dropped - first.network.rx_dropped : Int) : Rat))]
      Except.ok (some (container_name,
        [format_data "cpu.usage" container_name ts cpu_usage,
         format_data "memory.usage" container_name ts memory_usage,
         format_data "network.usage" container_name ts network_usage]))

/-- The full iteration over `machine_stats.items()` (insertion order of a
`Manager().dict()` fed by the sequentially-joined sampler processes),
building `payload`.  The loop body has no exception handler, so the first
error aborts the whole cycle: no later container is aggregated and `send`
is never reached. -/
def aggLoop (matchf : String → ContainerEntry → Bool)
    (payload : List (String × List MetricRecord)) :
    List (String × ContainerEntry) →
    Except AggError (List (String × List MetricRecord))
  | [] => Except.ok payload
  | (_, e) :: rest =>
    match aggregate_container matchf e with
    | Except.error err => Except.error err
    | Except.ok none => aggLoop matchf payload rest
    | Except.ok (some (nm, recs)) => aggLoop matchf (dictSet payload nm recs) rest

/-- Payload construction of `get_dockerstats_metrics`: the value handed
to `send(endpoint, payload)` when no iteration raises. -/
def get_dockerstats_payload (matchf : String → ContainerEntry → Bool)
    (machine_stats : List (String × ContainerEntry)) :
    Except AggError (List (String × List MetricRecord)) :=
  aggLoop matchf [] machine_stats

/-! ## Collector: ingestion endpoint (collector/collector.py lines 69-98)

A request body is modelled at the boundary of `req.stream.read()` and
`json.loads`: `none` is an empty byte string (falsy, so
`falcon.HTTPBadRequest` is raised before any handler is spawned); `some
p` is a non-empty body whose JSON decodes to the payload `p` (bodies that
are non-empty but invalid JSON make `json.loads` raise and are outside
the model).  A dispatch is the `Process(target=handler.process,
args=(entry, remote_ip)).start()` call — started and never joined, so the
response is computed without waiting on it; the model returns the
dispatched work as data next to the response. -/

abbrev Payload := List (String × List MetricRecord)

structure HttpError where
  status : Nat
  title : String
  description : String
deriving DecidableEq, Repr

structure HttpResponse where
  status : Nat
  contentType : String
  body : String
deriving DecidableEq, Repr

/-- `MetricsCollectorResource.on_post`.  On an empty body it raises
`falcon.HTTPBadRequest('Empty request body', 'A valid JSON document is
required.')` (status 400) with nothing dispatched; otherwise it spawns
one background `StatHandler.process` dispatch and immediately answers
200 with body `json.dumps({}, indent=4, sort_keys=True) = "\x7b\x7d"`. -/
def on_post (body : Option Payload) (remote_ip : String) :
    Except HttpError (HttpResponse × List (Payload × String)) :=
  match body with
  | none =>
      Except.error
        { status := 400
          title := "Empty request body"
          description := "A valid JSON document is required." }
  | some entry =>
      Except.ok
        ({ status := 200, contentType := "application/json", body := "\x7b\x7d" },
         [(entry, remote_ip)])

/-- Writer dispatches visible in an `on_post` outcome: a raised
`HTTPBadRequest` aborts the handler before any `Process` is created. -/
def dispatches (r : Except HttpError (HttpResponse × List (Payload × String))) :
    List (Payload × String) :=
  match r with
  | Except.error _ => []
  | Except.ok (_, ds) => ds

/-! ## Collector: writer (collector.py StatHandler, lines 100-157) -/

/-- Effect of `metric['tags']['remote_ip'] = remote_ip` on one record. -/
def tagRecord (ip : String) (r : MetricRecord) : MetricRecord :=
  { r with tags := dictSet r.tags "remote_ip" ip }

/-- The double loop inside `_get_metadata_default`: for each container
key in order, mutate every record's tags, then call
`influx_client.write_points(entry[container])`.  The store is an oracle
`store : batch → Bool`; `false` means `write_points` raises, which
leaves the loop immediately (the already-tagged failing container and
the untouched remaining containers keep their current state).  Returns
(an exception was raised, successful batched writes in order, final
state of `entry`). -/
def writerLoop (store : List MetricRecord → Bool) (ip : String) :
    List (String × List MetricRecord) →
    Bool × List (List MetricRecord) × List (String × List MetricRecord)
  | [] => (false, [], [])
  | (cid, recs) :: rest =>
      let tagged := recs.map (tagRecord ip)
      if store tagged then
        let r := writerLoop store ip rest
        (r.1, tagged :: r.2.1, (cid, tagged) :: r.2.2)
      else
        (true, [], (cid, tagged) :: rest)

/-- Observable outcome of one `_get_metadata_default` invocation.
`result` is `Except` so that an exception escaping the function would be
`.error`; the function body wraps the whole loop in `try/except
Exception`, so every path in fact returns `.ok` (`True` on success,
`ignore_fail` after a logged failure).  `errorLogged` records whether the
`except` clause ran `logger.error(e)`. -/
structure WriterOutcome where
  result : Except String Bool
  writes : List (List MetricRecord)
  finalEntry : List (String × List MetricRecord)
  errorLogged : Bool
deriving Repr

/-- `StatHandler._get_metadata_default` (collector.py lines 135-157). -/
def get_metadata_default (store : List MetricRecord → Bool) (entry : Payload)
    (remote_ip : String) (ignore_fail : Bool) : WriterOutcome :=
  let r := writerLoop store remote_ip entry
  { result := Except.ok (if r.1 then ignore_fail else true)
    writes := r.2.1
    finalEntry := r.2.2
    errorLogged := r.1 }

/-- `StatHandler.process` (collector.py lines 124-132): builds a fresh
`InfluxDBClient` (one connection per invocation, modelled by the `store`
oracle being passed in anew) and calls the metadata function with
`ignore_fail=False`. -/
def statHandlerProcess (store : List MetricRecord → Bool) (entry : Payload)
    (remote_ip : String) : WriterOutcome :=
  get_metadata_default store entry remote_ip false

/-- Record with its `remote_ip` tag bindings erased and everything else
kept; two records agree under this projection exactly when they differ
at most in the `remote_ip` tag. -/
def stripRecord (r : MetricRecord) : MetricRecord :=
  { r with tags := r.tags.filter (fun p => p.1 != "remote_ip") }

def stripEntry (e : String × List MetricRecord) : String × List MetricRecord :=
  (e.1, e.2.map stripRecord)

/-! ## Concrete fixtures

Small synthetic samples and records used by the closed evaluation
theorems below. -/

def fixtureStat1 : DockerStat :=
  { read := 100
    memory_stats := { usage := 2048 }
    cpu_stats := { cpu_usage := { total_usage := 500 }, system_cpu_usage := 9000 }
    network := { tx_bytes := 10240, rx_bytes := 20480, tx_packets := 3, rx_packets := 4,
                 tx_errors := 0, rx_errors := 0, tx_dropped := 0, rx_dropped := 0 } }

/-- Second sample with a smaller cumulative CPU counter than
`fixtureStat1` (a counter reset), so the window delta is negative. -/
def fixtureStat2 : DockerStat :=
  { read := 101
    memory_stats := { usage := 3072 }
    cpu_stats := { cpu_usage := { total_usage := 400 }, system_cpu_usage := 9500 }
    network := { tx_bytes := 20480, rx_bytes := 30720, tx_packets := 5, rx_packets := 7,
                 tx_errors := 1, rx_errors := 2, tx_dropped := 0, rx_dropped := 0 } }

/-- Third sample, giving a 3-sample series with distinct memory
readings (1024 bytes = 1 kB). -/
def fixtureStat3 : DockerStat :=
  { read := 102
    memory_stats := { usage := 1024 }
    cpu_stats := { cpu_usage := { total_usage := 800 }, system_cpu_usage := 9900 }
    network := { tx_bytes := 30720, rx_bytes := 40960, tx_packets := 9, rx_packets := 11,
                 tx_errors := 1, rx_errors := 2, tx_dropped := 3, rx_dropped := 4 } }

/-- Sample with a negative memory reading (−2048 bytes = −2 kB), for the
all-negative min/max fixture. -/
def fixtureNeg1 : DockerStat :=
  { read := 200
    memory_stats := { usage := -2048 }
    cpu_stats := { cpu_usage := { total_usage := 10 }, system_cpu_usage := 20 }
    network := { tx_bytes := 0, rx_bytes := 0, tx_packets := 0, rx_packets := 0,
                 tx_errors := 0, rx_errors := 0, tx_dropped := 0, rx_dropped := 0 } }

/-- Sample with a more negative memory reading (−5120 bytes = −5 kB). -/
def fixtureNeg2 : DockerStat :=
  { read := 201
    memory_stats := { usage := -5120 }
    cpu_stats := { cpu_usage := { total_usage := 30 }, system_cpu_usage := 40 }
    network := { tx_bytes := 0, rx_bytes := 0, tx_packets := 0, rx_packets := 0,
                 tx_errors := 0, rx_errors := 0, tx_dropped := 0, rx_dropped := 0 } }

def fixtureRecA : MetricRecord :=
  { measurement := "cpu.usage", timestamp := 100,
    tags := [("container_name", "c1")], fields := [("total", 7)] }

def fixtureRecB : MetricRecord :=
  { measurement := "memory.usage", timestamp := 100,
    tags := [("container_name", "c1")], fields := [("total", 5), ("ave", 5)] }

def fixtureRecC : MetricRecord :=
  { measurement := "network.usage", timestamp := 100,
    tags := [("container_name", "c1")], fields := [("tx_kb", 2)] }

/-! ## Helper lemmas about the aggregation fold -/

lemma tmm_step (x t m M : Rat) :
    total_min_max x t (some m) (some M) = (t + x, some (min m x), some (max M x)) := by
  have hmin : (if x < m then some x else some m) = some (min m x) := by
    rcases lt_or_ge x m with h | h
    · rw [if_pos h, min_eq_right h.le]
    · rw [if_neg (not_lt.mpr h), min_eq_left h]
  have hmax : (if x > M then some x else some M) = some (max M x) := by
    rcases lt_or_ge M x with h | h
    · rw [if_pos h, max_eq_right h.le]
    · rw [if_neg (not_lt.mpr h), max_eq_left h]
  simp only [total_min_max]
  rw [hmin, hmax]

lemma tmmFold_seeded (l : List Rat) : ∀ t m M : Rat,
    tmmFold (t, some m, some M) l =
      (t + l.sum, some (l.foldl min m), some (l.foldl max M)) := by
  induction l with
  | nil => intro t m M; simp [tmmFold]
  | cons x l ih =>
      intro t m M
      show tmmFold (total_min_max x t (some m) (some M)) l = _
      rw [tmm_step, ih, List.sum_cons, List.foldl_cons, List.foldl_cons, add_assoc]

lemma tmmFold_start (x : Rat) (l : List Rat) :
    tmmFold (0, none, none) (x :: l) =
      (x + l.sum, some (l.foldl min x), some (l.foldl max x)) := by
  show tmmFold (total_min_max x 0 none none) l = _
  have hstep : total_min_max x 0 none none = (0 + x, some x, some x) := rfl
  rw [hstep, tmmFold_seeded, zero_add]

section FoldMinMax

variable {α : Type} [LinearOrder α]

lemma foldl_min_le_init (l : List α) : ∀ a : α, l.foldl min a ≤ a := by
  induction l with
  | nil => intro a; exact le_refl a
  | cons x l ih =>
      intro a
      rw [List.foldl_cons]
      exact le_trans (ih (min a x)) (min_le_left a x)

lemma foldl_min_le_of_mem (l : List α) : ∀ (a x : α), x ∈ l → l.foldl min a ≤ x := by
  induction l with
  | nil => intro a x hx; cases hx
  | cons y l ih =>
      intro a x hx
      rw [List.foldl_cons]
      rcases List.mem_cons.mp hx with h | h
      · subst h
        exact le_trans (foldl_min_le_init l (min a x)) (min_le_right a x)
      · exact ih (min a y) x h

lemma foldl_min_mem_cons (l : List α) : ∀ a : α, l.foldl min a ∈ a :: l := by
  induction l with
  | nil => intro a; simp
  | cons x l ih =>
      intro a
      rw [List.foldl_cons]
      rcases List.mem_cons.mp (ih (min a x)) with h | h
      · rcases min_choice a x with hc | hc
        · rw [h, hc]; exact List.mem_cons_self _ _
        · rw [h, hc]; exact List.mem_cons_of_mem _ (List.mem_cons_self _ _)
      · exact List.mem_cons_of_mem _ (List.mem_cons_of_mem _ h)

lemma init_le_foldl_max (l : List α) : ∀ a : α, a ≤ l.foldl max a := by
  induction l with
  | nil => intro a; exact le_refl a
  | cons x l ih =>
      intro a
      rw [List.foldl_cons]
      exact le_trans (le_max_left a x) (ih (max a x))

lemma mem_le_foldl_max (l : List α) : ∀ (a x : α), x ∈ l → x ≤ l.foldl max a := by
  induction l with
  | nil => intro a x hx; cases hx
  | cons y l ih =>
      intro a x hx
      rw [List.foldl_cons]
      rcases List.mem_cons.mp hx with h | h
      · subst h
        exact le_trans (le_max_right a x) (init_le_foldl_max l (max a x))
      · exact ih (max a y) x h

lemma foldl_max_mem_cons (l : List α) : ∀ a : α, l.foldl max a ∈ a :: l := by
  induction l with
  | nil => intro a; simp
  | cons x l ih =>
      intro a
      rw [List.foldl_cons]
      rcases List.mem_cons.mp (ih (max a x)) with h | h
      · rcases max_choice a x with hc | hc
        · rw [h, hc]; exact List.mem_cons_self _ _
        · rw [h, hc]; exact List.mem_cons_of_mem _ (List.mem_cons_self _ _)
      · exact List.mem_cons_of_mem _ (List.mem_cons_of_mem _ h)

end FoldMinMax

/-! ## Helper lemmas about dict updates -/

section DictLemmas

variable {α : Type}

lemma dictGet_append_not_found (d : List (String × α)) (k : String) (v : α)
    (h : d.any (fun p => p.1 == k) = false) : dictGet (d ++ [(k, v)]) k = some v := by
  induction d with
  | nil => simp [dictGet]
  | cons p rest ih =>
      rw [List.any_cons, Bool.or_eq_false_iff] at h
      rw [List.cons_append]
      simp only [dictGet]
      rw [if_neg (by simp [h.1])]
      exact ih h.2

lemma dictGet_map_subst (k : String) (v : α) (d : List (String × α))
    (h : d.any (fun p => p.1 == k) = true) :
    dictGet (d.map (fun p => if p.1 == k then (k, v) else p)) k = some v := by
  induction d with
  | nil => cases h
  | cons p rest ih =>
      rw [List.any_cons, Bool.or_eq_true] at h
      rw [List.map_cons]
      by_cases hp : p.1 = k
      · simp [dictGet, hp]
      · have hpb : (p.1 == k) = false := by simp [hp]
        simp only [hpb, Bool.false_eq_true, if_false, dictGet]
        exact ih (h.resolve_left (by simp [hp]))

lemma dictGet_dictSet_self (d : List (String × α)) (k : String) (v : α) :
    dictGet (dictSet d k v) k = some v := by
  rw [dictSet]
  split_ifs with h
  · exact dictGet_map_subst k v d h
  · exact dictGet_append_not_found d k v (Bool.not_eq_true _ ▸ h)

lemma filter_map_subst (k : String) (v : α) (d : List (String × α)) :
    (d.map (fun p => if p.1 == k then (k, v) else p)).filter (fun p => p.1 != k) =
      d.filter (fun p => p.1 != k) := by
  induction d with
  | nil => rfl
  | cons p rest ih =>
      rw [List.map_cons]
      by_cases hp : p.1 = k
      · have hpb : (p.1 == k) = true := by simp [hp]
        rw [if_pos hpb]
        simpa [List.filter_cons, hp] using ih
      · have hpb : (p.1 == k) = false := by simp [hp]
        rw [if_neg (by simp [hp])]
        simpa [List.filter_cons, hp] using ih

lemma filter_dictSet_ne (d : List (String × α)) (k : String) (v : α) :
    (dictSet d k v).filter (fun p => p.1 != k) = d.filter (fun p => p.1 != k) := by
  rw [dictSet]
  split_ifs with h
  · exact filter_map_subst k v d
  · rw [List.filter_append]
    have : ([(k, v)] : List (String × α)).filter (fun p => p.1 != k) = [] := by simp
    rw [this, List.append_nil]

end DictLemmas

/-! ## Helper lemmas about the writer -/

lemma strip_tagRecord (ip : String) (r : MetricRecord) :
    stripRecord (tagRecord ip r) = stripRecord r := by
  simp only [stripRecord, tagRecord]
  rw [filter_dictSet_ne]

lemma map_strip_tag (ip : String) (recs : List MetricRecord) :
    (recs.map (tagRecord ip)).map stripRecord = recs.map stripRecord := by
  induction recs with
  | nil => rfl
  | cons r rest ih => simp only [List.map_cons, strip_tagRecord, ih]

lemma tagRecord_remote_ip (ip : String) (r : MetricRecord) :
    dictGet (tagRecord ip r).tags "remote_ip" = some ip := by
  exact dictGet_dictSet_self r.tags "remote_ip" ip

lemma writerLoop_all_ok (store : List MetricRecord → Bool) (ip : String)
    (h : ∀ b, store b = true) : ∀ entry,
    writerLoop store ip entry =
      (false, entry.map (fun e => e.2.map (tagRecord ip)),
       entry.map (fun e => (e.1, e.2.map (tagRecord ip)))) := by
  intro entry
  induction entry with
  | nil => rfl
  | cons e rest ih =>
      obtain ⟨cid, recs⟩ := e
      rw [writerLoop]
      simp only [h, if_true, ih, List.map_cons]

lemma writerLoop_frame (store : List MetricRecord → Bool) (ip : String) :
    ∀ entry, ((writerLoop store ip entry).2.2).map stripEntry = entry.map stripEntry := by
  intro entry
  induction entry with
  | nil => rfl
  | cons e rest ih =>
      obtain ⟨cid, recs⟩ := e
      rw [writerLoop]
      cases hs : store (recs.map (tagRecord ip)) with
      | true =>
          simp only [hs, if_true, List.map_cons]
          rw [ih]
          simp only [stripEntry, map_strip_tag]
      | false =>
          simp [hs, stripEntry, map_strip_tag, strip_tagRecord]

/-- Shared closed form of one aggregation iteration on a matched
container with a present, non-empty series: the cpu and network fields
are last-minus-first deltas of the corresponding cumulative counters
(bytes scaled to kB by 1024), the memory fields are the running
total/average and the fold-computed extrema over the per-sample kB
readings. -/
lemma aggregate_container_eq (matchf : String → ContainerEntry → Bool)
    (al : List String) (first : DockerStat) (rest : List DockerStat)
    (nm : String) (lastS : DockerStat)
    (hlast : (first :: rest).getLast (List.cons_ne_nil first rest) = lastS)
    (hmatch : findMatchName matchf { aliases := al, stats := some (first :: rest) } =
      some nm) :
    aggregate_container matchf { aliases := al, stats := some (first :: rest) } =
      Except.ok (some (nm,
        [format_data "cpu.usage" nm first.read
           [("total",
             ((lastS.cpu_stats.cpu_usage.total_usage -
               first.cpu_stats.cpu_usage.total_usage : Int) : Rat))],
         format_data "memory.usage" nm first.read
           [("total", ((first :: rest).map memKb).sum),
            ("ave", ((first :: rest).map memKb).sum / (((first :: rest).length : Nat) : Rat)),
            ("max", (rest.map memKb).foldl max (memKb first)),
            ("min", (rest.map memKb).foldl min (memKb first))],
         format_data "network.usage" nm first.read
           [("tx_kb", ((lastS.network.tx_bytes - first.network.tx_bytes : Int) : Rat) / 1024),
            ("rx_kb", ((lastS.network.rx_bytes - first.network.rx_bytes : Int) : Rat) / 1024),
            ("tx_packets", ((lastS.network.tx_packets - first.network.tx_packets : Int) : Rat)),
            ("rx_packets", ((lastS.network.rx_packets - first.network.rx_packets : Int) : Rat)),
            ("tx_errors", ((lastS.network.tx_errors - first.network.tx_errors : Int) : Rat)),
            ("rx_errors", ((lastS.network.rx_errors - first.network.rx_errors : Int) : Rat)),
            ("tx_dropped", ((lastS.network.tx_dropped - first.network.tx_dropped : Int) : Rat)),
            ("rx_dropped", ((lastS.network.rx_dropped - first.network.rx_dropped : Int) : Rat))]])) := by
  simp only [aggregate_container, hmatch, hlast, List.map_cons, tmmFold_start,
    List.sum_cons, Option.getD_some]

/-! ## Claim theorems -/

/-- C1 (code bug): when a container's stats stream breaks mid-window,
`get_stats_from_daemon`'s bare `except:` discards the partial series,
recording `stats = None` (never a zero-filled or partially averaged
series) — but the aggregation loop of `get_dockerstats_metrics`
subscripts `value['stats'][0]` without a `None` check, so the broken
container raises `TypeError`, aborting the entire cycle: the sibling
container `cid2`, which holds a valid 2-sample series, is never
aggregated and no payload is produced, contradicting the claimed
isolation of per-container fault domains. -/
theorem c1_broken_stream_aborts_cycle :
    (get_stats_from_daemon [some fixtureStat1, none, some fixtureStat2] ["/c1"] 60).stats =
      none ∧
    get_dockerstats_payload match_all
      [("cid1", { aliases := ["/c1"], stats := none }),
       ("cid2", { aliases := ["/c2"], stats := some [fixtureStat1, fixtureStat2] })] =
      Except.error AggError.typeError :=
  ⟨rfl, rfl⟩

/-- C2 counterexample: a series holding a single sample (fewer than 2)
still has its cumulative deltas computed — the aggregator emits a
`cpu.usage` record with a `total` delta (of value 0, since first and
last coincide) and a full `network.usage` delta record, falsifying "a
cumulative delta is only computed when the series has at least 2
samples". -/
theorem c2_counterexample :
    aggregate_container match_all { aliases := ["/c1"], stats := some [fixtureStat1] } =
      Except.ok (some ("c1",
        [format_data "cpu.usage" "c1" 100 [("total", 0)],
         format_data "memory.usage" "c1" 100
           [("total", 2), ("ave", 2), ("max", 2), ("min", 2)],
         format_data "network.usage" "c1" 100
           [("tx_kb", 0), ("rx_kb", 0), ("tx_packets", 0), ("rx_packets", 0),
            ("tx_errors", 0), ("rx_errors", 0), ("tx_dropped", 0), ("rx_dropped", 0)]])) := by
  have h := aggregate_container_eq match_all ["/c1"] fixtureStat1 [] "c1" fixtureStat1
    rfl (by decide)
  rw [h]
  norm_num [fixtureStat1, memKb, format_data]

/-- C2 amended: for every matched container whose series is non-empty,
`cpu.usage.total` equals the last sample's cumulative CPU counter minus
the first sample's, and every `network.usage` field equals last minus
first of the corresponding counter (tx/rx bytes divided by 1024 to give
kB); the subtraction is passed through unchanged, so a counter reset
producing a negative delta is never clamped.  The deltas are computed
for every series with at least 1 sample (for a singleton series they
equal 0), not only for series with at least 2 samples as the original
claim stated. -/
theorem c2_cumulative_deltas (matchf : String → ContainerEntry → Bool)
    (al : List String) (first : DockerStat) (rest : List DockerStat)
    (nm : String) (lastS : DockerStat)
    (hlast : (first :: rest).getLast (List.cons_ne_nil first rest) = lastS)
    (hmatch : findMatchName matchf { aliases := al, stats := some (first :: rest) } =
      some nm) :
    aggregate_container matchf { aliases := al, stats := some (first :: rest) } =
      Except.ok (some (nm,
        [format_data "cpu.usage" nm first.read
           [("total",
             ((lastS.cpu_stats.cpu_usage.total_usage -
               first.cpu_stats.cpu_usage.total_usage : Int) : Rat))],
         format_data "memory.usage" nm first.read
           [("total", ((first :: rest).map memKb).sum),
            ("ave", ((first :: rest).map memKb).sum / (((first :: rest).length : Nat) : Rat)),
            ("max", (rest.map memKb).foldl max (memKb first)),
            ("min", (rest.map memKb).foldl min (memKb first))],
         format_data "network.usage" nm first.read
           [("tx_kb", ((lastS.network.tx_bytes - first.network.tx_bytes : Int) : Rat) / 1024),
            ("rx_kb", ((lastS.network.rx_bytes - first.network.rx_bytes : Int) : Rat) / 1024),
            ("tx_packets", ((lastS.network.tx_packets - first.network.tx_packets : Int) : Rat)),
            ("rx_packets", ((lastS.network.rx_packets - first.network.rx_packets : Int) : Rat)),
            ("tx_errors", ((lastS.network.tx_errors - first.network.tx_errors : Int) : Rat)),
            ("rx_errors", ((lastS.network.rx_errors - first.network.rx_errors : Int) : Rat)),
            ("tx_dropped", ((lastS.network.tx_dropped - first.network.tx_dropped : Int) : Rat)),
            ("rx_dropped", ((lastS.network.rx_dropped - first.network.rx_dropped : Int) : Rat))]])) :=
  aggregate_container_eq matchf al first rest nm lastS hlast hmatch

/-- C2 witness: a 2-sample series in which the cumulative CPU counter
falls from 500 to 400 across the window: the delta −100 is emitted
unchanged (no clamping), and every network field is last minus first
(bytes scaled by 1024 into kB). -/
theorem c2_cumulative_deltas_witness :
    aggregate_container match_all { aliases := ["/c1"], stats := some [fixtureStat1, fixtureStat2] } =
      Except.ok (some ("c1",
        [format_data "cpu.usage" "c1" 100 [("total", -100)],
         format_data "memory.usage" "c1" 100
           [("total", 5), ("ave", 5 / 2), ("max", 3), ("min", 2)],
         format_data "network.usage" "c1" 100
           [("tx_kb", 10), ("rx_kb", 10), ("tx_packets", 2), ("rx_packets", 3),
            ("tx_errors", 1), ("rx_errors", 2), ("tx_dropped", 0), ("rx_dropped", 0)]])) := by
  have h := c2_cumulative_deltas match_all ["/c1"] fixtureStat1 [fixtureStat2] "c1"
    fixtureStat2 rfl (by decide)
  rw [h]
  norm_num [fixtureStat1, fixtureStat2, memKb, format_data, min_def, max_def]

/-- C3: for every matched sample series of length L ≥ 2, the
`memory.usage` record has `total` equal to the sum over all samples of
the memory usage in kilobytes (bytes divided by 1024) and `ave` equal to
the total divided by L. -/
theorem c3_memory_total_ave (matchf : String → ContainerEntry → Bool)
    (al : List String) (first : DockerStat) (rest : List DockerStat)
    (nm : String) (lastS : DockerStat)
    (hlast : (first :: rest).getLast (List.cons_ne_nil first rest) = lastS)
    (hmatch : findMatchName matchf { aliases := al, stats := some (first :: rest) } =
      some nm)
    (hlen : 2 ≤ (first :: rest).length) :
    aggregate_container matchf { aliases := al, stats := some (first :: rest) } =
      Except.ok (some (nm,
        [format_data "cpu.usage" nm first.read
           [("total",
             ((lastS.cpu_stats.cpu_usage.total_usage -
               first.cpu_stats.cpu_usage.total_usage : Int) : Rat))],
         format_data "memory.usage" nm first.read
           [("total", ((first :: rest).map memKb).sum),
            ("ave", ((first :: rest).map memKb).sum / (((first :: rest).length : Nat) : Rat)),
            ("max", (rest.map memKb).foldl max (memKb first)),
            ("min", (rest.map memKb).foldl min (memKb first))],
         format_data "network.usage" nm first.read
           [("tx_kb", ((lastS.network.tx_bytes - first.network.tx_bytes : Int) : Rat) / 1024),
            ("rx_kb", ((lastS.network.rx_bytes - first.network.rx_bytes : Int) : Rat) / 1024),
            ("tx_packets", ((lastS.network.tx_packets - first.network.tx_packets : Int) : Rat)),
            ("rx_packets", ((lastS.network.rx_packets - first.network.rx_packets : Int) : Rat)),
            ("tx_errors", ((lastS.network.tx_errors - first.network.tx_errors : Int) : Rat)),
            ("rx_errors", ((lastS.network.rx_errors - first.network.rx_errors : Int) : Rat)),
            ("tx_dropped", ((lastS.network.tx_dropped - first.network.tx_dropped : Int) : Rat)),
            ("rx_dropped", ((lastS.network.rx_dropped - first.network.rx_dropped : Int) : Rat))]])) :=
  aggregate_container_eq matchf al first rest nm lastS hlast hmatch

/-- C3 witness: a 3-sample series with memory readings 2 kB, 3 kB, 1 kB:
total = 6 and ave = 6 / 3 = 2. -/
theorem c3_memory_total_ave_witness :
    aggregate_container match_all
        { aliases := ["/c1"], stats := some [fixtureStat1, fixtureStat2, fixtureStat3] } =
      Except.ok (some ("c1",
        [format_data "cpu.usage" "c1" 100 [("total", 300)],
         format_data "memory.usage" "c1" 100
           [("total", 6), ("ave", 2), ("max", 3), ("min", 1)],
         format_data "network.usage" "c1" 100
           [("tx_kb", 20), ("rx_kb", 20), ("tx_packets", 6), ("rx_packets", 7),
            ("tx_errors", 1), ("rx_errors", 2), ("tx_dropped", 3), ("rx_dropped", 4)]])) := by
  have h := c3_memory_total_ave match_all ["/c1"] fixtureStat1 [fixtureStat2, fixtureStat3]
    "c1" fixtureStat3 rfl (by decide) (by decide)
  rw [h]
  norm_num [fixtureStat1, fixtureStat2, fixtureStat3, memKb, format_data, min_def, max_def]

/-- C4: for every matched non-empty sample series, the `memory.usage`
record's `min` and `max` fields are the fold-computed extrema seeded
from the first sample's kB reading, and these are the true minimum and
maximum of the per-sample kB readings: each is a member of the reading
list, bounds every reading from the respective side, and no sentinel
value is involved (the statement holds for all-negative and all-zero
readings alike). -/
theorem c4_memory_min_max (matchf : String → ContainerEntry → Bool)
    (al : List String) (first : DockerStat) (rest : List DockerStat)
    (nm : String) (lastS : DockerStat)
    (hlast : (first :: rest).getLast (List.cons_ne_nil first rest) = lastS)
    (hmatch : findMatchName matchf { aliases := al, stats := some (first :: rest) } =
      some nm) :
    aggregate_container matchf { aliases := al, stats := some (first :: rest) } =
      Except.ok (some (nm,
        [format_data "cpu.usage" nm first.read
           [("total",
             ((lastS.cpu_stats.cpu_usage.total_usage -
               first.cpu_stats.cpu_usage.total_usage : Int) : Rat))],
         format_data "memory.usage" nm first.read
           [("total", ((first :: rest).map memKb).sum),
            ("ave", ((first :: rest).map memKb).sum / (((first :: rest).length : Nat) : Rat)),
            ("max", (rest.map memKb).foldl max (memKb first)),
            ("min", (rest.map memKb).foldl min (memKb first))],
         format_data "network.usage" nm first.read
           [("tx_kb", ((lastS.network.tx_bytes - first.network.tx_bytes : Int) : Rat) / 1024),
            ("rx_kb", ((lastS.network.rx_bytes - first.network.rx_bytes : Int) : Rat) / 1024),
            ("tx_packets", ((lastS.network.tx_packets - first.network.tx_packets : Int) : Rat)),
            ("rx_packets", ((lastS.network.rx_packets - first.network.rx_packets : Int) : Rat)),
            ("tx_errors", ((lastS.network.tx_errors - first.network.tx_errors : Int) : Rat)),
            ("rx_errors", ((lastS.network.rx_errors - first.network.rx_errors : Int) : Rat)),
            ("tx_dropped", ((lastS.network.tx_dropped - first.network.tx_dropped : Int) : Rat)),
            ("rx_dropped", ((lastS.network.rx_dropped - first.network.rx_dropped : Int) : Rat))]])) ∧
    (rest.map memKb).foldl min (memKb first) ∈ (first :: rest).map memKb ∧
    (∀ x ∈ (first :: rest).map memKb, (rest.map memKb).foldl min (memKb first) ≤ x) ∧
    (rest.map memKb).foldl max (memKb first) ∈ (first :: rest).map memKb ∧
    (∀ x ∈ (first :: rest).map memKb, x ≤ (rest.map memKb).foldl max (memKb first)) := by
  refine ⟨aggregate_container_eq matchf al first rest nm lastS hlast hmatch, ?_, ?_, ?_, ?_⟩
  · rw [List.map_cons]
    exact foldl_min_mem_cons (rest.map memKb) (memKb first)
  · intro x hx
    rw [List.map_cons] at hx
    rcases List.mem_cons.mp hx with h | h
    · rw [h]
      exact foldl_min_le_init (rest.map memKb) (memKb first)
    · exact foldl_min_le_of_mem (rest.map memKb) (memKb first) x h
  · rw [List.map_cons]
    exact foldl_max_mem_cons (rest.map memKb) (memKb first)
  · intro x hx
    rw [List.map_cons] at hx
    rcases List.mem_cons.mp hx with h | h
    · rw [h]
      exact init_le_foldl_max (rest.map memKb) (memKb first)
    · exact mem_le_foldl_max (rest.map memKb) (memKb first) x h

/-- C4 witness: an all-negative 2-sample series with memory readings
−2 kB and −5 kB: min = −5 and max = −2, the true extrema, with no
sentinel artifact. -/
theorem c4_memory_min_max_witness :
    aggregate_container match_all { aliases := ["/c1"], stats := some [fixtureNeg1, fixtureNeg2] } =
      Except.ok (some ("c1",
        [format_data "cpu.usage" "c1" 200 [("total", 20)],
         format_data "memory.usage" "c1" 200
           [("total", -7), ("ave", -7 / 2), ("max", -2), ("min", -5)],
         format_data "network.usage" "c1" 200
           [("tx_kb", 0), ("rx_kb", 0), ("tx_packets", 0), ("rx_packets", 0),
            ("tx_errors", 0), ("rx_errors", 0), ("tx_dropped", 0), ("rx_dropped", 0)]])) := by
  have h := (c4_memory_min_max match_all ["/c1"] fixtureNeg1 [fixtureNeg2] "c1"
    fixtureNeg2 rfl (by decide)).1
  rw [h]
  norm_num [fixtureNeg1, fixtureNeg2, memKb, format_data, min_def, max_def]

/-- C5: a POST to /collector/metrics with an empty body is rejected
synchronously with a 400 client error carrying the explicit detail
"Empty request body" / "A valid JSON document is required.", and zero
writer dispatches occur; a POST with a non-empty valid JSON body returns
200 with response body `{}` and hands exactly one background dispatch the
decoded payload and caller IP — the response is fixed data that does not
depend on the dispatched writer's store write in any way. -/
theorem c5_on_post_validation (p : Payload) (ip : String) :
    on_post none ip =
      Except.error
        { status := 400, title := "Empty request body",
          description := "A valid JSON document is required." } ∧
    dispatches (on_post none ip) = [] ∧
    on_post (some p) ip =
      Except.ok
        ({ status := 200, contentType := "application/json", body := "\x7b\x7d" },
         [(p, ip)]) ∧
    dispatches (on_post (some p) ip) = [(p, ip)] :=
  ⟨rfl, rfl, rfl, rfl⟩

/-- C9: the startup selector installs `match_all` for `ALL` and
`match_on_uuid` for `UUID`, but selecting the all-but-self policy
(`MATCH_TYPE=NO_CADVISOR`) raises `NameError` because the branch refers
to the undefined name `match_all_but_cadvisor` (modelled as `none`), so
no strategy is installed at all; the function the branch was evidently
meant to install, `match_all_but_sender`, does exclude exactly the
containers whose alias list contains the sender's own alias and matches
every other container. -/
theorem c9_strategy_selection :
    selectMatch "ALL" = some match_all ∧
    selectMatch "UUID" = some match_on_uuid ∧
    selectMatch "NO_CADVISOR" = none ∧
    ∀ (name : String) (value : ContainerEntry),
      match_all_but_sender name value = !(value.aliases.contains "sender") := by
  refine ⟨rfl, rfl, rfl, ?_⟩
  intro name value
  rw [match_all_but_sender]
  cases h : value.aliases.contains "sender" <;> simp [h]

/-- C10: the writer's tagging step changes at most the `remote_ip` tag
binding of each record: under every store behavior (all writes
succeeding, or a `write_points` failure aborting the loop mid-way) and
both `ignore_fail` settings, erasing the `remote_ip` tag from the final
state of the payload yields exactly the erased original — so every
container list keeps its records (none added or removed, order kept) and
every record keeps its measurement, timestamp, fields and all other tag
bindings. -/
theorem c10_writer_frame (store : List MetricRecord → Bool) (ip : String)
    (ignore_fail : Bool) (entry : Payload) :
    ((get_metadata_default store entry ip ignore_fail).finalEntry).map stripEntry =
      entry.map stripEntry := by
  simp only [get_metadata_default]
  exact writerLoop_frame store ip entry

/-- C7 counterexample: the claim "the filter matches a container name if
and only if the name parses as a version-1 UUID string" fails in both
directions at concrete inputs: the version-1 UUID string
`f47ac10b-58cc-1ef1-b532-0242ac130003` is rejected when the container's
alias list contains `sender`, and the version-4-shaped string
`f47ac10b-58cc-4ef1-b532-0242ac130003` (not a version-1 UUID string) is
accepted, because `uuid.UUID(name, version=1)` overwrites the version
bits instead of validating them. -/
theorem c7_counterexample :
    specVersion1Uuid "f47ac10b-58cc-1ef1-b532-0242ac130003" = true ∧
    match_on_uuid "f47ac10b-58cc-1ef1-b532-0242ac130003"
      { aliases := ["sender"], stats := none } = false ∧
    specVersion1Uuid "f47ac10b-58cc-4ef1-b532-0242ac130003" = false ∧
    match_on_uuid "f47ac10b-58cc-4ef1-b532-0242ac130003"
      { aliases := ["web"], stats := none } = true := by
  refine ⟨by decide, by decide, by decide, by decide⟩

/-- C7 amended: the match-uuid predicate matches iff the container's
alias list does not contain `sender` and the name is a syntactically
valid UUID string of any version (the `version=1` argument of
`uuid.UUID` stamps the version bits, it validates nothing); in
particular it accepts `f47ac10b-58cc-1ef1-b532-0242ac130003` for a
container not aliased `sender` and rejects `redis-cache`. -/
theorem c7_match_uuid_amended (name : String) (value : ContainerEntry) :
    match_on_uuid name value =
      (!(value.aliases.contains "sender") && pyUuidValid name) ∧
    match_on_uuid "f47ac10b-58cc-1ef1-b532-0242ac130003"
      { aliases := ["web"], stats := none } = true ∧
    match_on_uuid "redis-cache" { aliases := ["web"], stats := none } = false := by
  refine ⟨?_, by decide, by decide⟩
  rw [match_on_uuid]
  cases h : value.aliases.contains "sender" <;> simp [h]

/-- C8 counterexample: with a failing store write and the default
`ignore_fail=False`, the writer does not re-raise: the `except Exception`
clause swallows the error after logging it and the function returns
normally with value `False` (`Except.ok false`, not `Except.error _`),
contradicting "suppressed or re-raised according to the ignore_fail
flag". -/
theorem c8_counterexample :
    (get_metadata_default (fun _ => false)
        [("c1", [fixtureRecA])] "10.0.0.5" false).errorLogged = true ∧
    (get_metadata_default (fun _ => false)
        [("c1", [fixtureRecA])] "10.0.0.5" false).result = Except.ok false :=
  ⟨rfl, rfl⟩

/-- C8 amended: when a store write inside the writer fails, the error is
logged and the exception is always swallowed, the writer returning the
`ignore_fail` flag as its value — with the default `ignore_fail=False`
(also the value `StatHandler.process` passes) the failure is surfaced
only as a `False` return, never by re-raising; when every container's
records are written successfully the writer returns `True`. -/
theorem c8_writer_result (store : List MetricRecord → Bool) (ip : String)
    (ignore_fail : Bool) (entry : Payload) :
    (get_metadata_default store entry ip ignore_fail).result =
      Except.ok
        (if (get_metadata_default store entry ip ignore_fail).errorLogged
         then ignore_fail else true) ∧
    statHandlerProcess store entry ip = get_metadata_default store entry ip false ∧
    ((∀ b, store b = true) →
      (get_metadata_default store entry ip ignore_fail).result = Except.ok true ∧
      (get_metadata_default store entry ip ignore_fail).errorLogged = false) := by
  refine ⟨rfl, rfl, ?_⟩
  intro h
  simp [get_metadata_default, writerLoop_all_ok store ip h entry]

/-- C8 witness: applying the amended theorem at an all-successful
concrete store shows the writer reporting success. -/
theorem c8_writer_result_witness :
    (get_metadata_default (fun _ => true)
        [("c1", [fixtureRecA])] "10.0.0.5" false).result = Except.ok true :=
  ((c8_writer_result (fun _ => true) "10.0.0.5" false
      [("c1", [fixtureRecA])]).2.2 (fun _ => rfl)).1

/-- C6: when every store write succeeds, the writer issues exactly one
batched write per container key, in payload order, the batch being
exactly that container's records each updated with the tag
`remote_ip = caller address`; consequently every point of every issued
batch carries `remote_ip = ip`. -/
theorem c6_writer_batches (store : List MetricRecord → Bool) (ip : String)
    (ignore_fail : Bool) (entry : Payload) (h : ∀ b, store b = true) :
    (get_metadata_default store entry ip ignore_fail).writes =
      entry.map (fun e => e.2.map (tagRecord ip)) ∧
    ∀ batch ∈ (get_metadata_default store entry ip ignore_fail).writes,
      ∀ r ∈ batch, dictGet r.tags "remote_ip" = some ip := by
  have hw : (get_metadata_default store entry ip ignore_fail).writes =
      entry.map (fun e => e.2.map (tagRecord ip)) := by
    simp [get_metadata_default, writerLoop_all_ok store ip h entry]
  refine ⟨hw, ?_⟩
  intro batch hb r hr
  rw [hw] at hb
  rcases List.mem_map.mp hb with ⟨e, _, rfl⟩
  rcases List.mem_map.mp hr with ⟨r0, _, rfl⟩
  exact tagRecord_remote_ip ip r0

/-- C6 witness: a payload with 3 records for container `c1` and origin
IP `10.0.0.5` produces exactly one batched write of exactly 3 points,
each of them the original record with `remote_ip = 10.0.0.5` attached. -/
theorem c6_writer_batches_witness :
    (get_metadata_default (fun _ => true)
        [("c1", [fixtureRecA, fixtureRecB, fixtureRecC])] "10.0.0.5" false).writes =
      [[tagRecord "10.0.0.5" fixtureRecA, tagRecord "10.0.0.5" fixtureRecB,
        tagRecord "10.0.0.5" fixtureRecC]] :=
  (c6_writer_batches (fun _ => true) "10.0.0.5" false
      [("c1", [fixtureRecA, fixtureRecB, fixtureRecC])] (fun _ => rfl)).1

end DockerMetrics
